import Mathlib

/-!
Verification of the WpDaemon supervisor core against its design document.

The definitions below are a shallow embedding of the C++ sources:
state_machine.cpp, log_manager.cpp, config_manager.cpp, command_handler.cpp,
tcp_server.cpp, wireproxy_process.cpp and main.cpp.  Pure computations are
translated to Lean functions; the stateful components (LogManager,
CommandHandler, WireProxyProcess, the TCP worker) become explicit state
passing, with the operating-system effects that the code cannot observe
directly (does the config file exist, did fork succeed, is the child alive,
at which poll does waitpid reap it) supplied as explicit environment data.
-/

/-! ## StateMachine (src/src/state_machine.cpp) -/

/-- Lifecycle states of the daemon, from state_machine.hpp. -/
inductive State where
  | IDLE
  | STARTING
  | RUNNING
  | STOPPING
deriving DecidableEq, Repr, Fintype

/-- StateMachine::is_valid_transition: the switch over the current state. -/
def is_valid_transition (cur : State) (tgt : State) : Bool :=
  match cur with
  | State.IDLE => tgt = State.STARTING
  | State.STARTING => tgt = State.RUNNING || tgt = State.IDLE
  | State.RUNNING => tgt = State.STOPPING || tgt = State.IDLE
  | State.STOPPING => tgt = State.IDLE

/-- StateMachine::transition_to: under the mutex, load the current state,
validate, and store the new state on success.  The pair returned is
(return value, stored state afterwards). -/
def transition_to (current : State) (new_state : State) : Bool × State :=
  if is_valid_transition current new_state then (true, new_state)
  else (false, current)

/-- The six rows of the transition table in the design document. -/
def transitionTable : List (State × State) :=
  [(State.IDLE, State.STARTING),
   (State.STARTING, State.RUNNING),
   (State.STARTING, State.IDLE),
   (State.RUNNING, State.STOPPING),
   (State.RUNNING, State.IDLE),
   (State.STOPPING, State.IDLE)]

/-- Boolean test that the first list is an initial segment of the second. -/
def leadsWith : List Char → List Char → Bool
  | [], _ => true
  | _ :: _, [] => false
  | p :: ps, h :: hs => p = h && leadsWith ps hs

/-- Boolean substring containment: pat occurs contiguously inside the
second argument. -/
def containsSeq (pat : List Char) : List Char → Bool
  | [] => leadsWith pat []
  | h :: t => leadsWith pat (h :: t) || containsSeq pat t

/-- String.find-style containment used for line.find("ERROR:") and for the
regex searches of the watchdog. -/
def strContains (hay pat : String) : Bool :=
  containsSeq pat.toList hay.toList

/-! ## NetworkWatchdog (WireProxyProcess::monitor_log_for_network_errors,
first file in src/unnamed/part_004) -/

/-- An apostrophe character, used inside the second watchdog pattern. -/
def apos : Char := Char.ofNat 39

/-- Watchdog pattern: network is unreachable. -/
def patNetworkUnreachable : String := "network is unreachable"

/-- Watchdog pattern: cannot assign requested address (with an apostrophe
in the middle word as in the source regex). -/
def patCantAssign : String :=
  "can" ++ String.singleton apos ++ "t assign requested address"

/-- Does a log line match either network-drop pattern (regex_search over
the two literal regexes)? -/
def lineMatches (line : String) : Bool :=
  strContains line patNetworkUnreachable || strContains line patCantAssign

/-- line.find("ERROR:") != npos: the line contains the substring ERROR:. -/
def lineHasErrorTag (line : String) : Bool :=
  strContains line ("ERROR:")

/-- The claim speaks of ERROR:-prefixed lines; this is that reading of the
check, for comparison with lineHasErrorTag which the code implements. -/
def lineErrorPrefixed (line : String) : Bool :=
  leadsWith ("ERROR:".toList) line.toList

/-- ERROR_THRESHOLD in monitor_log_for_network_errors. -/
def ERROR_THRESHOLD : Nat := 5

/-- State of WireProxyProcess relevant to the watchdog and to terminate:
pid_ (-1 when absent), terminated_, network_drop_detected_, plus the
operating-system fact of whether the child is currently running (what
waitpid WNOHANG would report). -/
structure Proc where
  pid : Int
  terminated : Bool
  network_drop_detected : Bool
  alive : Bool
deriving DecidableEq, Repr

/-- State of the monitoring loop: the consecutive-match counter, the
network-drop flag it may set, whether it sent SIGTERM to the process
group, and whether the loop returned. -/
structure WatchSt where
  consecutive_errors : Nat
  network_drop_detected : Bool
  sigterm_sent : Bool
  returned : Bool
deriving DecidableEq, Repr

/-- Initial watchdog state after seeking to end of file. -/
def watchInit : WatchSt :=
  { consecutive_errors := 0, network_drop_detected := false,
    sigterm_sent := false, returned := false }

/-- One getline iteration of monitor_log_for_network_errors on a line read
from the log.  A matching line increments the counter and, at the
threshold, sets the drop flag, sends SIGTERM to the group when the pid is
valid, and returns; a non-matching line without the ERROR: substring
resets the counter; a non-matching line containing ERROR: is left alone. -/
def watchStep (p : Proc) (w : WatchSt) (line : String) : WatchSt :=
  if w.returned then w
  else if lineMatches line then
    let c := w.consecutive_errors + 1
    if ERROR_THRESHOLD ≤ c then
      { consecutive_errors := c, network_drop_detected := true,
        sigterm_sent := (p.pid ≠ -1 && !p.terminated), returned := true }
    else { w with consecutive_errors := c }
  else if lineHasErrorTag line = false then
    { w with consecutive_errors := 0 }
  else w

/-- The watchdog run over a finite sequence of lines read from the log. -/
def watchRun (p : Proc) (lines : List String) : WatchSt :=
  lines.foldl (watchStep p) watchInit

/-- A concrete matching line for tests below. -/
def mLine : String := "ERROR: write udp: network is unreachable"

/-- A concrete non-matching line without the ERROR: substring. -/
def plainLine : String := "peer handshake completed"

/-- A concrete non-matching line that contains ERROR: but not as a
prefix. -/
def midErrLine : String := "wg ERROR: handshake timeout"

/-- A concrete process with a valid pid for watchdog runs. -/
def procSample : Proc :=
  { pid := 4242, terminated := false, network_drop_detected := false,
    alive := true }

/-- Signals the supervisor may send to the child process group. -/
inductive Signal where
  | SIGTERM
  | SIGKILL
deriving DecidableEq, Repr

/-- WireProxyProcess::cleanup: mark terminated and clear the pid. -/
def WireProxyProcess_cleanup (p : Proc) : Proc :=
  { p with terminated := true, pid := -1 }

/-- WireProxyProcess::terminate.  When a child is present and not yet
terminated it sends SIGTERM to the negative pid (the process group), then
polls waitpid WNOHANG every 100 ms for 50 iterations (5 s); reapAtPoll
says whether the poll at a given iteration reaps the child.  If some poll
within the window reaps it the method is "Graceful termination";
otherwise it sends SIGKILL to the group, block-waits for the reap, and
the method is "Force killed".  Either way cleanup runs.  With no child,
or after a prior termination, it returns "Not running" and changes
nothing.  The result is (state afterwards, returned method, list of
(signal, target) pairs sent, targets being the negated pid). -/
def terminate (p : Proc) (reapAtPoll : Nat → Bool) :
    Proc × String × List (Signal × Int) :=
  if p.pid = -1 ∨ p.terminated = true then (p, "Not running", [])
  else
    let graceful := (List.range 50).any reapAtPoll
    if graceful then
      (WireProxyProcess_cleanup { p with alive := false },
       "Graceful termination", [(Signal.SIGTERM, -p.pid)])
    else
      (WireProxyProcess_cleanup { p with alive := false },
       "Force killed", [(Signal.SIGTERM, -p.pid), (Signal.SIGKILL, -p.pid)])

/-- LogManager state. -/
structure LogMgr where
  isOpen : Bool
  current_log_path : String
  lastReason : Option String
  badClose : Bool
deriving DecidableEq, Repr

/-- LogManager state at daemon startup: no log has ever been opened. -/
def logInit : LogMgr :=
  { isOpen := false, current_log_path := "", lastReason := none,
    badClose := false }

/-- LogManager::create_log: first fcloses any existing handle (with no
footer — recorded in badClose), assigns the new timestamped path (the
path is environment data because it embeds the wall clock), opens the
file and writes the header.  fails=true models fopen returning null, in
which case the method throws after the path was already assigned.
Returns the new state and whether the call succeeded. -/
def LogMgr.create_log (lm : LogMgr) (path : String) (fails : Bool) :
    LogMgr × Bool :=
  let lm1 : LogMgr :=
    { lm with badClose := lm.badClose || lm.isOpen, isOpen := false,
              current_log_path := path }
  if fails then (lm1, false) else ({ lm1 with isOpen := true }, true)

/-- LogManager::finalize: no-op when no log is open; otherwise writes the
teardown footer carrying the shutdown method and fcloses the handle. -/
def LogMgr.finalize (lm : LogMgr) (shutdown_method : String) : LogMgr :=
  if lm.isOpen then
    { lm with isOpen := false, lastReason := some shutdown_method }
  else lm

/-- LogManager::is_log_open. -/
def LogMgr.is_log_open (lm : LogMgr) : Bool := lm.isOpen

/-- LogManager::get_current_log_path. -/
def LogMgr.get_current_log_path (lm : LogMgr) : String := lm.current_log_path

/-- ConfigManager::normalize_config_name: append .conf when the suffix is
absent. -/
def normalize_config_name (config_name : String) : String :=
  if 5 ≤ config_name.length ∧
      config_name.toList.drop (config_name.length - 5) = ".conf".toList
  then config_name
  else config_name ++ ".conf"

/-! ## Replies (nlohmann::json objects built by CommandHandler) -/

/-- Values appearing inside a result object. -/
inductive JVal where
  | jnull
  | jbool (b : Bool)
  | jint (n : Int)
  | jstr (s : String)
  | jstrList (xs : List String)
deriving DecidableEq, Repr

/-- A reply object.  Every reply the dispatcher or the TCP worker builds
has exactly the three keys CMD, result and error, which is why the type
has exactly these three fields; result is a sub-object (a keyed field
list) or null, error is a string or null. -/
structure Reply where
  CMD : String
  result : Option (List (String × JVal))
  error : Option String
deriving DecidableEq, Repr

/-! ## CommandHandler (src/unnamed/part_000) -/

/-- CommandHandler state: the StateMachine it consults, the LogManager,
the owned WireProxyProcess (null when absent) and current_config_. -/
structure Daemon where
  state_machine_ : State
  log_manager_ : LogMgr
  process_ : Option Proc
  current_config_ : String
deriving DecidableEq, Repr

/-- The daemon right after initialization. -/
def daemonInit : Daemon :=
  { state_machine_ := State.IDLE, log_manager_ := logInit,
    process_ := none, current_config_ := "" }

/-- WireProxyProcess::is_alive: false with no pid; otherwise the no-hang
waitpid probe, which also reaps the zombie when the child has exited. -/
def WireProxyProcess_is_alive (p : Proc) : Bool :=
  if p.pid = -1 then false else p.alive

/-- Environment facts consumed during one handle_spin_up call: does the
normalized config resolve, does get_version throw (and with what
message), does fopen fail inside create_log, which path create_log
allocates, does fork/exec succeed, the child pid, and whether the child
is still alive after the 500 ms startup delay. -/
structure SpinUpEnv where
  config_exists : Bool
  get_version_throws : Bool
  exn_msg : String
  create_log_fails : Bool
  log_path : String
  spawn_ok : Bool
  new_pid : Int
  alive_after_delay : Bool

/-- CommandHandler::handle_spin_up, line for line: the Idle guard, config
normalization and existence check, Idle→Starting, then the try block
(get_version, create_log, spawn, 500 ms delay, liveness probe) whose
error paths finalize the log, drop the process and revert to Idle, and
whose catch clause finalizes a possibly-open log, drops the process,
reverts to Idle and clears the config. -/
def handle_spin_up (env : SpinUpEnv) (d : Daemon) (config_name : String) :
    Daemon × Reply :=
  if d.state_machine_ ≠ State.IDLE then
    (d, { CMD := "spin_up", result := none,
          error := some ("WireProxy is already running" ++
            (if d.current_config_ ≠ "" then
              " with config: " ++ d.current_config_ else ("") )) })
  else
    let normalized := normalize_config_name config_name
    if env.config_exists = false then
      (d, ⟨"spin_up", none,
           some ("Configuration not found: " ++ normalized)⟩)
    else
      let t1 := transition_to d.state_machine_ State.STARTING
      if t1.1 = false then
        (d, ⟨"spin_up", none, some ("Failed to transition to STARTING state")⟩)
      else
        let d1 := { d with state_machine_ := t1.2 }
        if env.get_version_throws then
          let lm := if d1.log_manager_.is_log_open then
              d1.log_manager_.finalize ("Error during startup")
            else d1.log_manager_
          ({ d1 with log_manager_ := lm, process_ := none,
                     state_machine_ := (transition_to d1.state_machine_ State.IDLE).2,
                     current_config_ := "" },
           ⟨"spin_up", none, some ("Exception during spin_up: " ++ env.exn_msg)⟩)
        else
          let created := d1.log_manager_.create_log env.log_path env.create_log_fails
          let d2 := { d1 with log_manager_ := created.1 }
          if created.2 = false then
            let lm := if d2.log_manager_.is_log_open then
                d2.log_manager_.finalize ("Error during startup")
              else d2.log_manager_
            ({ d2 with log_manager_ := lm, process_ := none,
                       state_machine_ := (transition_to d2.state_machine_ State.IDLE).2,
                       current_config_ := "" },
             ⟨"spin_up", none,
              some ("Exception during spin_up: Failed to create log file: " ++
                env.log_path)⟩)
          else
            if env.spawn_ok = false then
              ({ d2 with log_manager_ := d2.log_manager_.finalize ("Spawn failed"),
                         process_ := none,
                         state_machine_ := (transition_to d2.state_machine_ State.IDLE).2 },
               ⟨"spin_up", none, some ("Failed to spawn WireProxy process")⟩)
            else
              let p : Proc := { pid := env.new_pid, terminated := false,
                                network_drop_detected := false,
                                alive := env.alive_after_delay }
              let d3 := { d2 with process_ := some p }
              if WireProxyProcess_is_alive p = false then
                let failed_log := d3.log_manager_.get_current_log_path
                ({ d3 with
                     log_manager_ := d3.log_manager_.finalize ("Process died during startup"),
                     process_ := none,
                     state_machine_ := (transition_to d3.state_machine_ State.IDLE).2,
                     current_config_ := "" },
                 ⟨"spin_up", none,
                  some ("WireProxy failed to start. Check log: " ++ failed_log)⟩)
              else
                ({ d3 with current_config_ := normalized,
                           state_machine_ := (transition_to d3.state_machine_ State.RUNNING).2 },
                 ⟨"spin_up",
                  some [("status", JVal.jstr ("running")),
                        ("config", JVal.jstr normalized),
                        ("pid", JVal.jint env.new_pid),
                        ("log_file", JVal.jstr env.log_path)],
                  none⟩)

/-- CommandHandler::handle_spin_down: the Running-with-process guard,
Running→Stopping, terminate (the reap schedule of the polling loop is
environment data), finalize with the returned method, drop the process,
clear the config, Stopping→Idle, and the stopped reply. -/
def handle_spin_down (reap : Nat → Bool) (d : Daemon) : Daemon × Reply :=
  if d.state_machine_ ≠ State.RUNNING ∨ d.process_ = none then
    (d, ⟨"spin_down", none, some ("WireProxy is not running")⟩)
  else
    match d.process_ with
    | none => (d, ⟨"spin_down", none, some ("WireProxy is not running")⟩)
    | some p =>
      let t1 := transition_to d.state_machine_ State.STOPPING
      if t1.1 = false then
        (d, ⟨"spin_down", none, some ("Failed to transition to STOPPING state")⟩)
      else
        let d1 := { d with state_machine_ := t1.2 }
        let prev_config := d1.current_config_
        let log_path := d1.log_manager_.get_current_log_path
        let shutdown_method := (terminate p reap).2.1
        ({ d1 with log_manager_ := d1.log_manager_.finalize shutdown_method,
                   process_ := none,
                   current_config_ := "",
                   state_machine_ := (transition_to d1.state_machine_ State.IDLE).2 },
         ⟨"spin_down",
          some [("status", JVal.jstr ("stopped")),
                ("previous_config", JVal.jstr prev_config),
                ("log_file", JVal.jstr log_path)],
          none⟩)

/-- CommandHandler::check_and_cleanup_process: when state is Running and a
process is held but the no-hang probe reaps a dead child, finalize the
log — with the network-drop reason exactly when the flag was set by the
watchdog — drop the process, clear the config and transition to Idle. -/
def check_and_cleanup_process (d : Daemon) : Daemon :=
  if d.state_machine_ = State.RUNNING then
    match d.process_ with
    | some p =>
      if WireProxyProcess_is_alive p then d
      else
        let termination_reason :=
          if p.network_drop_detected then ("Network drop detected - auto-terminated")
          else ("Process died unexpectedly")
        { d with log_manager_ := d.log_manager_.finalize termination_reason,
                 process_ := none,
                 current_config_ := "",
                 state_machine_ := (transition_to d.state_machine_ State.IDLE).2 }
    | none => d
  else d

/-- CommandHandler::handle_state: lazy liveness cleanup, then the running
or not-running reply. -/
def handle_state (d0 : Daemon) : Daemon × Reply :=
  let d := check_and_cleanup_process d0
  match d.state_machine_, d.process_ with
  | State.RUNNING, some p =>
    (d, ⟨"state",
         some [("running", JVal.jbool true),
               ("config", JVal.jstr d.current_config_),
               ("pid", JVal.jint p.pid),
               ("log_file", JVal.jstr d.log_manager_.get_current_log_path)],
         none⟩)
  | _, _ =>
    (d, ⟨"state",
         some [("running", JVal.jbool false),
               ("config", JVal.jnull),
               ("pid", JVal.jnull),
               ("log_file",
                if d.log_manager_.get_current_log_path = "" then JVal.jnull
                else JVal.jstr d.log_manager_.get_current_log_path)],
         none⟩)

/-- WPDAEMON_VERSION is a build-time constant supplied by the build
system; its value is irrelevant to every claim. -/
def WPDAEMON_VERSION : String := "2.0.0"

/-- CommandHandler::handle_available_confs; the sorted listing comes from
the external ConfigManager collaborator. -/
def handle_available_confs (configs : List String) (d : Daemon) :
    Daemon × Reply :=
  (d, ⟨"available_confs",
       some [("count", JVal.jint configs.length),
             ("configs", JVal.jstrList configs)],
       none⟩)

/-- CommandHandler::handle_whoami. -/
def handle_whoami (d : Daemon) : Daemon × Reply :=
  (d, ⟨"whoami",
       some [("version", JVal.jstr WPDAEMON_VERSION),
             ("implementation", JVal.jstr ("C++"))],
       none⟩)

/-! ## Command-line parsing inside CommandHandler::execute -/

/-- The whitespace set of the two erase calls: space and horizontal tab,
exactly the characters in the C++ literal. -/
def isTrimWs (c : Char) : Bool := c = ' ' || c = '\t'

/-- The two erase calls: strip leading then trailing space/tab. -/
def trimField (cs : List Char) : List Char :=
  ((cs.dropWhile isTrimWs).reverse.dropWhile isTrimWs).reverse

/-- std::getline over a stringstream with a delimiter: yields fields
separated by the delimiter; a trailing delimiter does not produce a
trailing empty field, and an empty stream yields nothing. -/
def getlineSplitAux (delim : Char) (acc : List Char) :
    List Char → List (List Char)
  | [] => [acc.reverse]
  | c :: cs =>
    if c = delim then
      match cs with
      | [] => [acc.reverse]
      | _ :: _ => acc.reverse :: getlineSplitAux delim [] cs
    else getlineSplitAux delim (c :: acc) cs

/-- The getline-by-comma loop of CommandHandler::execute, over any
delimiter. -/
def getlineSplit (delim : Char) (cs : List Char) : List (List Char) :=
  match cs with
  | [] => []
  | _ => getlineSplitAux delim [] cs

/-- The parsing prelude of CommandHandler::execute: find the first colon
(none means a parse error); the command is the text before it; the text
after it loses one trailing newline, is split on commas, each field is
trimmed of space/tab at both ends, and empty fields are discarded. -/
def parseCmdArgs (command : String) : Option (String × List String) :=
  match command.toList.dropWhile (fun c => c ≠ ':') with
  | [] => none
  | _ :: rest =>
    let pre := command.toList.takeWhile (fun c => c ≠ ':')
    let rest2 :=
      match rest.getLast? with
      | some c => if c = '\n' then rest.dropLast else rest
      | none => rest
    let args := ((getlineSplit ',' rest2).map trimField).filter (fun f => f ≠ [])
    some (String.mk pre, args.map (fun f => String.mk f))

/-- Environment facts consumed by one command execution. -/
structure Env where
  spin_up_env : SpinUpEnv
  reap : Nat → Bool
  configs : List String

/-- CommandHandler::execute: parse, then dispatch on the command name;
unknown names and missing colons produce error replies with the same
three-key shape. -/
def execute (env : Env) (d : Daemon) (command : String) : Daemon × Reply :=
  match parseCmdArgs command with
  | none => (d, ⟨"unknown", none, some ("Parsing error: colon not found")⟩)
  | some (cmd, args) =>
    if cmd = "spin_up" then
      match args with
      | [] => (d, ⟨cmd, none, some ("Not enough args: spin_up requires config name")⟩)
      | a :: _ => handle_spin_up env.spin_up_env d a
    else if cmd = "spin_down" then handle_spin_down env.reap d
    else if cmd = "state" then handle_state d
    else if cmd = "available_confs" then handle_available_confs env.configs d
    else if cmd = "whoami" then handle_whoami d
    else (d, ⟨cmd, none, some ("Unknown command: " ++ cmd)⟩)

/-! ## TCPServer worker (src/unnamed/part_002) -/

/-- TCPServer::parse_command: look for a newline in the data of one recv;
none means failure, otherwise the command is the text through the first
newline. -/
def parse_command (data : String) : Option String :=
  let cs := data.toList
  let pre := cs.takeWhile (fun c => c ≠ '\n')
  if pre.length = cs.length then none
  else some (String.mk (cs.take (pre.length + 1)))

/-- TCPServer::process_client: one loop iteration per successful recv.
Each chunk is parsed on its own — the buffer is not carried across
reads — and a chunk without a newline is answered with the Newline not
found error reply instead of being accumulated. -/
def process_client (env : Env) : Daemon → List String → List Reply × Daemon
  | d, [] => ([], d)
  | d, chunk :: rest =>
    match parse_command chunk with
    | none =>
      let out := process_client env d rest
      (⟨"unknown", none, some ("Newline not found")⟩ :: out.1, out.2)
    | some line =>
      let step := execute env d line
      let out := process_client env step.1 rest
      (step.2 :: out.1, out.2)

/-! ## Supervisor shutdown (src/unnamed/part_001, main.cpp) -/

/-- TCPServer listener state. -/
structure ServerSt where
  running : Bool
  acceptor_open : Bool
deriving DecidableEq, Repr

/-- TCPServer::stop: clear the running flag and close the acceptor. -/
def TCPServer_stop (s : ServerSt) : ServerSt :=
  { s with running := false, acceptor_open := false }

/-- The whole supervisor process: the listener, the CommandHandler state,
and whether the process has exited. -/
structure Supervisor where
  server : ServerSt
  handler : Daemon
  exited : Bool
deriving DecidableEq, Repr

/-- signal_handler from main.cpp for SIGINT and SIGTERM: print a message,
call g_server->stop(), then exit(0).  exit does not unwind the stack of
run_daemon_mode, so the CommandHandler and any live WireProxyProcess are
never destroyed: neither terminate nor finalize runs on the way out. -/
def signal_handler (sup : Supervisor) : Supervisor :=
  { sup with server := TCPServer_stop sup.server, exited := true }

/-! ## Concrete run data shared by the theorems below -/

/-- A spin_up environment in which everything succeeds. -/
def envGoodSpin : SpinUpEnv :=
  { config_exists := true, get_version_throws := false, exn_msg := "",
    create_log_fails := false, log_path := "1700000000_c.log",
    spawn_ok := true, new_pid := 42, alive_after_delay := true }

/-- A command environment in which spin_up succeeds. -/
def envGood : Env :=
  { spin_up_env := envGoodSpin, reap := fun _ => false, configs := [] }

/-- A command environment in which no config resolves. -/
def envNoop : Env :=
  { spin_up_env :=
      { config_exists := false, get_version_throws := false, exn_msg := "",
        create_log_fails := false, log_path := "", spawn_ok := false,
        new_pid := -1, alive_after_delay := false },
    reap := fun _ => false, configs := [] }

/-- The daemon after a successful spin_up of config c from the initial
state. -/
def dRun : Daemon := (execute envGood daemonInit ("spin_up:c\n")).1

/-- A supervisor with a live session: running child, open log. -/
def liveSupervisor : Supervisor :=
  { server := { running := true, acceptor_open := true },
    handler := { state_machine_ := State.RUNNING,
                 log_manager_ :=
                   { isOpen := true, current_log_path := "1700000000_c.log",
                     lastReason := none, badClose := false },
                 process_ := some procSample,
                 current_config_ := "c.conf" },
    exited := false }

/-- ASCII whitespace, the character class named by the claim: space,
horizontal tab, line feed, vertical tab, form feed, carriage return. -/
def isAsciiWs (c : Char) : Bool :=
  c = ' ' || c = '\t' || c = '\n' ||
  c = Char.ofNat 11 || c = Char.ofNat 12 || c = Char.ofNat 13

/-- Exactly one of the result and error fields of a reply is null. -/
def replyOk (r : Reply) : Bool := Bool.xor r.result.isNone r.error.isNone

/-! ## Reachability of dispatcher states

Commands execute atomically under the dispatcher mutex; between commands
the environment may let the child die, or the watchdog may set the
network-drop flag (and force the child down, observed as a separate
death event).  DStep is one such step, DReachable the states of actual
runs from the freshly initialized daemon. -/

/-- The invariant tying the log, the session and the lifecycle state
together at command boundaries: no handle was ever closed without its
footer, an Idle daemon holds no session, no open log and no config, and
an open log means a held session in the Running state. -/
def DaemonInv (d : Daemon) : Prop :=
  d.log_manager_.badClose = false ∧
  (d.state_machine_ = State.IDLE →
    d.log_manager_.isOpen = false ∧ d.process_ = none ∧ d.current_config_ = "") ∧
  (d.log_manager_.isOpen = true →
    d.process_.isSome = true ∧ d.state_machine_ = State.RUNNING)

/-- One step of the supervisor: a dispatched command, a child death, or
the watchdog raising the network-drop flag. -/
inductive DStep : Daemon → Daemon → Prop where
  | cmd (env : Env) (command : String) (d : Daemon) :
      DStep d (execute env d command).1
  | childDies (d : Daemon) (p : Proc) (h : d.process_ = some p) :
      DStep d { d with process_ := some { p with alive := false } }
  | watchdogTrips (d : Daemon) (p : Proc) (h : d.process_ = some p) :
      DStep d { d with process_ := some { p with network_drop_detected := true } }

/-- Dispatcher states reachable in an actual run. -/
inductive DReachable : Daemon → Prop where
  | init : DReachable daemonInit
  | step {d d2 : Daemon} (hr : DReachable d) (hs : DStep d d2) : DReachable d2

/-- A child that has died without being terminated by the supervisor. -/
def pDead : Proc :=
  { pid := 42, terminated := false, network_drop_detected := false, alive := false }

/-- A running daemon whose child has just died. -/
def dDead : Daemon :=
  { state_machine_ := State.RUNNING,
    log_manager_ := { isOpen := true, current_log_path := "1700000000_c.log",
                      lastReason := none, badClose := false },
    process_ := some pDead,
    current_config_ := "c.conf" }

/-- C1: transition_to succeeds and stores the target state exactly for the
six table rows Idle→Starting, Starting→Running, Starting→Idle,
Running→Stopping, Running→Idle, Stopping→Idle; every other pair returns
false and leaves the stored state unchanged. -/
theorem C1_transition_table :
    ∀ f t : State,
      ((transition_to f t).1 = true ∧ (transition_to f t).2 = t
          ↔ (f, t) ∈ transitionTable)
      ∧ ((f, t) ∉ transitionTable → transition_to f t = (false, f)) := by
  decide

/-- C1 witness: Running→Starting is not in the table, so it fails and the
state stays Running; Idle→Starting is in the table. -/
theorem C1_transition_table_witness :
    transition_to State.RUNNING State.STARTING = (false, State.RUNNING) ∧
    transition_to State.IDLE State.STARTING = (true, State.STARTING) := by
  refine ⟨(C1_transition_table State.RUNNING State.STARTING).2 (by decide), ?_⟩
  have h := (C1_transition_table State.IDLE State.STARTING).1.2 (by decide)
  exact Prod.ext h.1 h.2

/-! ## Substring search

std::regex_search with the literal patterns of the watchdog is substring
containment; line.find of std::string likewise.  We code both over lists of
characters. -/

/-- C3 counterexample: after four matching lines the counter is 4; the
line "wg ERROR: handshake timeout" matches neither pattern and is not
ERROR:-prefixed, yet the code leaves the counter at 4 instead of
resetting it to zero as the claim states, because the code tests for the
ERROR: substring anywhere in the line, not as a prefix. -/
theorem C3_counterexample :
    lineMatches midErrLine = false ∧
    lineErrorPrefixed midErrLine = false ∧
    (watchRun procSample [mLine, mLine, mLine, mLine]).consecutive_errors = 4 ∧
    (watchStep procSample (watchRun procSample [mLine, mLine, mLine, mLine])
        midErrLine).consecutive_errors = 4 := by
  decide

/-- C3 (amended): while the loop has not returned, a matching line
increments the consecutive counter; when the incremented counter reaches
the threshold 5 the watchdog sets the network-drop flag, sends SIGTERM to
the child process group (guarded by pid validity), and returns; below
the threshold only the counter changes; a non-matching line that does not
contain the substring ERROR: resets the counter to zero; a non-matching
line containing ERROR: leaves the state unchanged.  In particular four
matching lines, one non-error non-matching line, and one matching line do
not trip the watchdog, while five consecutive matching lines do. -/
theorem C3_watchdog_consecutive :
    (∀ (p : Proc) (w : WatchSt) (line : String), w.returned = false →
      (lineMatches line = true → ERROR_THRESHOLD ≤ w.consecutive_errors + 1 →
        watchStep p w line =
          { consecutive_errors := w.consecutive_errors + 1,
            network_drop_detected := true,
            sigterm_sent := (p.pid ≠ -1 && !p.terminated),
            returned := true }) ∧
      (lineMatches line = true → w.consecutive_errors + 1 < ERROR_THRESHOLD →
        watchStep p w line = { w with consecutive_errors := w.consecutive_errors + 1 }) ∧
      (lineMatches line = false → lineHasErrorTag line = false →
        watchStep p w line = { w with consecutive_errors := 0 }) ∧
      (lineMatches line = false → lineHasErrorTag line = true →
        watchStep p w line = w)) ∧
    (watchRun procSample [mLine, mLine, mLine, mLine, plainLine, mLine]).network_drop_detected
        = false ∧
    (watchRun procSample [mLine, mLine, mLine, mLine, plainLine, mLine]).sigterm_sent = false ∧
    (watchRun procSample [mLine, mLine, mLine, mLine, mLine]).network_drop_detected = true ∧
    (watchRun procSample [mLine, mLine, mLine, mLine, mLine]).sigterm_sent = true := by
  refine ⟨?_, by decide, by decide, by decide, by decide⟩
  intro p w line hw
  refine ⟨fun hm h5 => ?_, fun hm h5 => ?_, fun hm he => ?_, fun hm he => ?_⟩
  · simp [watchStep, hw, hm, h5]
  · have h5n : ¬ ERROR_THRESHOLD ≤ w.consecutive_errors + 1 := by omega
    simp [watchStep, hw, hm, h5n]
  · simp [watchStep, hw, hm, he]
  · simp [watchStep, hw, hm, he]

/-- C3 witness: one matching line from the initial watchdog state sets the
counter to 1 without tripping. -/
theorem C3_watchdog_consecutive_witness :
    watchStep procSample watchInit mLine =
      { watchInit with consecutive_errors := watchInit.consecutive_errors + 1 } := by
  have h := C3_watchdog_consecutive.1 procSample watchInit mLine (by decide)
  exact h.2.1 (by decide) (by decide)

/-! ## WireProxyProcess::terminate (src/unnamed/part_004) -/

/-- C8: terminate sends SIGTERM to the child process group; if a poll
within the 50-iteration (100 ms each, 5 s total) window reaps the child
it returns "Graceful termination" having sent only SIGTERM, otherwise it
sends SIGKILL to the group and returns "Force killed"; afterwards the pid
is cleared and the terminated flag set, so a second call — or a call with
no child running — returns "Not running", sends nothing, and changes
nothing. -/
theorem C8_terminate_escalation :
    ∀ (p : Proc) (reap : Nat → Bool),
      ((p.pid = -1 ∨ p.terminated = true) →
        terminate p reap = (p, "Not running", [])) ∧
      (p.pid ≠ -1 → p.terminated = false →
        ((∃ i, i < 50 ∧ reap i = true) →
           (terminate p reap).2.1 = "Graceful termination" ∧
           (terminate p reap).2.2 = [(Signal.SIGTERM, -p.pid)]) ∧
        ((∀ i, i < 50 → reap i = false) →
           (terminate p reap).2.1 = "Force killed" ∧
           (terminate p reap).2.2 =
             [(Signal.SIGTERM, -p.pid), (Signal.SIGKILL, -p.pid)]) ∧
        (terminate p reap).1.pid = -1 ∧
        (terminate p reap).1.terminated = true ∧
        (∀ reap2 : Nat → Bool,
           terminate (terminate p reap).1 reap2 =
             ((terminate p reap).1, "Not running", []))) := by
  intro p reap
  constructor
  · intro h
    simp [terminate, h]
  · intro hp ht
    have hcond : ¬ (p.pid = -1 ∨ p.terminated = true) := by
      simp [hp, ht]
    by_cases g : (List.range 50).any reap = true
    · refine ⟨fun _ => ?_, fun hnone => ?_, ?_, ?_, ?_⟩
      · simp [terminate, hcond, g]
      · exfalso
        rcases List.any_eq_true.mp g with ⟨i, hi, hri⟩
        exact absurd hri (by simp [hnone i (List.mem_range.mp hi)])
      · simp [terminate, hcond, g, WireProxyProcess_cleanup]
      · simp [terminate, hcond, g, WireProxyProcess_cleanup]
      · intro reap2
        simp [terminate, hcond, g, WireProxyProcess_cleanup]
    · refine ⟨fun hsome => ?_, fun _ => ?_, ?_, ?_, ?_⟩
      · exfalso
        rcases hsome with ⟨i, hi, hri⟩
        exact g (List.any_eq_true.mpr ⟨i, List.mem_range.mpr hi, hri⟩)
      · simp [terminate, hcond, g]
      · simp [terminate, hcond, g, WireProxyProcess_cleanup]
      · simp [terminate, hcond, g, WireProxyProcess_cleanup]
      · intro reap2
        simp [terminate, hcond, g, WireProxyProcess_cleanup]

/-- C8 witness: a live child reaped at poll 3 terminates gracefully, and a
second terminate returns "Not running". -/
theorem C8_terminate_escalation_witness :
    (terminate procSample (fun i => decide (i = 3))).2.1 = "Graceful termination" ∧
    terminate (terminate procSample (fun i => decide (i = 3))).1 (fun _ => false) =
      ((terminate procSample (fun i => decide (i = 3))).1, "Not running", []) := by
  have h := (C8_terminate_escalation procSample (fun i => decide (i = 3))).2
      (by decide) rfl
  exact ⟨(h.1 ⟨3, by decide, by decide⟩).1, h.2.2.2.2 (fun _ => false)⟩

/-! ## LogManager (src/src/log_manager.cpp)

State: isOpen models log_file_ being non-null; current_log_path models
current_log_path_; lastReason records the Shutdown Method written by the
most recent footer; badClose is a history flag that becomes true the
moment any open handle is closed, or replaced, without the footer having
been written to it first (the fclose at the top of create_log is the only
place that can do this). -/

/-- C2: the claim states that supervisor shutdown on SIGINT or SIGTERM
terminates a live child process group with the spin_down escalation and
finalizes the log.  The code does not: signal_handler only stops the TCP
listener and calls exit(0), which unwinds no stack, so the live
WireProxyProcess is never terminated (its terminated flag stays false,
no signal is sent) and the open log is never finalized (it stays open
with no footer reason recorded). -/
theorem C2_shutdown_leaves_session :
    (signal_handler liveSupervisor).exited = true ∧
    (signal_handler liveSupervisor).server.running = false ∧
    (signal_handler liveSupervisor).handler = liveSupervisor.handler ∧
    (signal_handler liveSupervisor).handler.process_ = some procSample ∧
    procSample.terminated = false ∧ procSample.alive = true ∧
    (signal_handler liveSupervisor).handler.log_manager_.isOpen = true ∧
    (signal_handler liveSupervisor).handler.log_manager_.lastReason = none := by
  decide

/-- C9: the claim states the worker accumulates bytes across reads until a
newline arrives.  The code parses each recv chunk on its own: the chunk
whoami: without a newline is answered with the Newline not found error
reply, and the following chunk holding only the newline is parsed as an
empty command line, so the command is never accepted — both replies are
errors.  The same command accepted in one chunk shows the command itself
is valid. -/
theorem C9_no_accumulation_across_reads :
    (process_client envNoop daemonInit [("whoami:"), ("\n")]).1.map Reply.error =
      [some ("Newline not found"), some ("Parsing error: colon not found")] ∧
    (process_client envNoop daemonInit [("whoami:" ++ "\n")]).1.map Reply.error =
      [none] := by
  decide

/-! ## C10: argument trimming -/

/-- C10 counterexample: the dispatcher trims only space and horizontal
tab, not all ASCII whitespace.  The command line spin_up:a followed by a
carriage return parses to the single argument a-carriage-return, whose
last character is ASCII whitespace, so the argument list is not fully
ASCII-whitespace-trimmed as the claim states. -/
theorem C10_counterexample :
    parseCmdArgs ("spin_up:a\x0D") = some ("spin_up", ["a\x0D"]) ∧
    ("a\x0D").toList.getLast? = some (Char.ofNat 13) ∧
    isAsciiWs (Char.ofNat 13) = true := by
  decide

/-- Helper: the head of a dropWhile result never satisfies the dropped
predicate. -/
theorem head?_dropWhile_not (p : Char → Bool) :
    ∀ l : List Char, ∀ c : Char, (l.dropWhile p).head? = some c → p c = false := by
  intro l
  induction l with
  | nil => intro c h; simp [List.dropWhile] at h
  | cons a t ih =>
    intro c h
    rw [List.dropWhile_cons] at h
    by_cases hp : p a = true
    · simp [hp] at h
      exact ih c h
    · simp [hp] at h
      rw [← h]
      simpa using hp

/-- Helper: a non-empty dropWhile result keeps the last element of the
original list. -/
theorem getLast?_dropWhile_ne (p : Char → Bool) :
    ∀ l : List Char, l.dropWhile p ≠ [] →
      (l.dropWhile p).getLast? = l.getLast? := by
  intro l
  induction l with
  | nil => intro h; simp [List.dropWhile] at h
  | cons a t ih =>
    intro h
    rw [List.dropWhile_cons] at h ⊢
    by_cases hp : p a = true
    · rw [if_pos hp] at h ⊢
      rw [ih h]
      cases t with
      | nil => simp [List.dropWhile] at h
      | cons b t2 => exact (List.getLast?_cons_cons).symm
    · rw [if_neg hp]

/-- Helper: the first character of a trimmed field is not space or tab. -/
theorem trimField_head (g : List Char) (c : Char)
    (h : (trimField g).head? = some c) : isTrimWs c = false := by
  unfold trimField at h
  rw [List.head?_reverse] at h
  have hne : (g.dropWhile isTrimWs).reverse.dropWhile isTrimWs ≠ [] := by
    intro hke
    rw [hke] at h
    simp at h
  rw [getLast?_dropWhile_ne isTrimWs _ hne, List.getLast?_reverse] at h
  exact head?_dropWhile_not isTrimWs g c h

/-- Helper: the last character of a trimmed field is not space or tab. -/
theorem trimField_last (g : List Char) (c : Char)
    (h : (trimField g).getLast? = some c) : isTrimWs c = false := by
  unfold trimField at h
  rw [List.getLast?_reverse] at h
  exact head?_dropWhile_not isTrimWs _ c h

/-- C10 (amended): for every command line, the text after the first colon
is split on commas into arguments; each argument is trimmed of space and
horizontal tab — the exact whitespace set the code erases, not all of
ASCII whitespace — at both ends, and every field that is empty after
trimming is discarded, so the argument list passed to a handler contains
only non-empty strings with no leading or trailing space or tab. -/
theorem C10_args_trimmed_nonempty :
    ∀ (command cmd : String) (args : List String),
      parseCmdArgs command = some (cmd, args) →
      ∀ a ∈ args, a ≠ "" ∧
        (∀ c : Char, a.toList.head? = some c → isTrimWs c = false) ∧
        (∀ c : Char, a.toList.getLast? = some c → isTrimWs c = false) := by
  intro command cmd args hp a ha
  unfold parseCmdArgs at hp
  split at hp
  · exact absurd hp (by simp)
  · simp only [Option.some.injEq, Prod.mk.injEq] at hp
    obtain ⟨-, hargs⟩ := hp
    subst hargs
    rcases List.mem_map.mp ha with ⟨f, hf, rfl⟩
    have hf2 := List.mem_filter.mp hf
    rcases List.mem_map.mp hf2.1 with ⟨g, hg, rfl⟩
    have hfne : trimField g ≠ [] := by simpa using hf2.2
    refine ⟨?_, ?_, ?_⟩
    · intro he
      apply hfne
      have hdata : (String.mk (trimField g)).data = ("" : String).data := by
        rw [he]
      simpa using hdata
    · intro c hc
      exact trimField_head g c (by simpa using hc)
    · intro c hc
      exact trimField_last g c (by simpa using hc)

/-- C10 witness: the command line spin_up with argument c surrounded by
spaces and a trailing empty field parses to the single clean argument. -/
theorem C10_args_trimmed_nonempty_witness :
    parseCmdArgs ("spin_up: c ,") = some ("spin_up", ["c"]) ∧ ("c" : String) ≠ "" :=
  ⟨by decide,
   (C10_args_trimmed_nonempty ("spin_up: c ,") ("spin_up") ["c"] (by decide)
      ("c") (by decide)).1⟩

/-! ## C7: reply shape -/

/-- Helper: spin_up replies are well shaped. -/
theorem replyOk_handle_spin_up (env : SpinUpEnv) (d : Daemon) (cfg : String) :
    replyOk (handle_spin_up env d cfg).2 = true := by
  simp only [handle_spin_up]
  repeat' split
  all_goals rfl

/-- Helper: spin_down replies are well shaped. -/
theorem replyOk_handle_spin_down (reap : Nat → Bool) (d : Daemon) :
    replyOk (handle_spin_down reap d).2 = true := by
  simp only [handle_spin_down]
  repeat' split
  all_goals rfl

/-- Helper: state replies are well shaped. -/
theorem replyOk_handle_state (d : Daemon) :
    replyOk (handle_state d).2 = true := by
  simp only [handle_state]
  repeat' split
  all_goals rfl

/-- Helper: execute replies are well shaped. -/
theorem replyOk_execute (env : Env) (d : Daemon) (command : String) :
    replyOk (execute env d command).2 = true := by
  simp only [execute]
  repeat' split
  all_goals
    first
      | rfl
      | apply replyOk_handle_spin_up
      | apply replyOk_handle_spin_down
      | apply replyOk_handle_state

/-- Helper: every reply a worker produces is well shaped. -/
theorem replyOk_process_client (env : Env) :
    ∀ (chunks : List String) (d : Daemon),
      ((process_client env d chunks).1.all replyOk) = true := by
  intro chunks
  induction chunks with
  | nil => intro d; simp [process_client]
  | cons c rest ih =>
    intro d
    unfold process_client
    split
    · simp [replyOk, ih]
    · simp [replyOk_execute, ih]

/-- C7: for every input line the reply is an object with exactly the keys
CMD, result and error (the Reply record has exactly these three fields,
and every reply the code builds is such a record), where result is a
sub-object exactly when error is null and result is null exactly when
error is a string: in every reply of the dispatcher, and in every reply
the TCP worker writes (including its own Newline not found error),
exactly one of result and error is null. -/
theorem C7_reply_exactly_one_null :
    (∀ (env : Env) (d : Daemon) (command : String),
      replyOk (execute env d command).2 = true) ∧
    (∀ (env : Env) (d : Daemon) (chunks : List String),
      ((process_client env d chunks).1.all replyOk) = true) :=
  ⟨replyOk_execute, fun env d chunks => replyOk_process_client env chunks d⟩

/-! ## Invariant helpers and the reachability claims -/

/-- Helper: finalize never touches badClose (the footer is written before
the fclose when a log is open). -/
theorem finalize_badClose (lm : LogMgr) (r : String) :
    (lm.finalize r).badClose = lm.badClose := by
  unfold LogMgr.finalize
  split <;> rfl

/-- Helper: after finalize no log is open. -/
theorem finalize_isOpen (lm : LogMgr) (r : String) :
    (lm.finalize r).isOpen = false := by
  unfold LogMgr.finalize
  split
  · rfl
  · simp_all

/-- Helper: finalizing an open log records the shutdown method in its
footer. -/
theorem finalize_lastReason (lm : LogMgr) (r : String) (h : lm.isOpen = true) :
    (lm.finalize r).lastReason = some r := by
  unfold LogMgr.finalize
  rw [if_pos h]

/-- Helper: handle_spin_up preserves the daemon invariant. -/
theorem DaemonInv_handle_spin_up (env : SpinUpEnv) (d : Daemon) (cfg : String)
    (hinv : DaemonInv d) : DaemonInv (handle_spin_up env d cfg).1 := by
  obtain ⟨hbad, hidle, hopen⟩ := hinv
  by_cases hsm : d.state_machine_ = State.IDLE
  · obtain ⟨hop, hpr, hcf⟩ := hidle hsm
    by_cases hce : env.config_exists = false <;>
    by_cases hgv : env.get_version_throws = true <;>
    by_cases hcl : env.create_log_fails = true <;>
    by_cases hsp : env.spawn_ok = false <;>
    by_cases hnp : env.new_pid = -1 <;>
    by_cases hal : env.alive_after_delay = true <;>
    simp_all [handle_spin_up, DaemonInv, transition_to, is_valid_transition,
      LogMgr.create_log, finalize_badClose, finalize_isOpen, LogMgr.is_log_open,
      LogMgr.get_current_log_path, WireProxyProcess_is_alive]
  · have hne : d.state_machine_ ≠ State.IDLE := hsm
    simp only [handle_spin_up, if_pos hne]
    exact ⟨hbad, hidle, hopen⟩

/-- Helper: handle_spin_down preserves the daemon invariant. -/
theorem DaemonInv_handle_spin_down (reap : Nat → Bool) (d : Daemon)
    (hinv : DaemonInv d) : DaemonInv (handle_spin_down reap d).1 := by
  obtain ⟨hbad, hidle, hopen⟩ := hinv
  by_cases hg : (d.state_machine_ ≠ State.RUNNING ∨ d.process_ = none)
  · simp only [handle_spin_down, if_pos hg]
    exact ⟨hbad, hidle, hopen⟩
  · push_neg at hg
    obtain ⟨hsm, hproc⟩ := hg
    have hg2 : ¬ (d.state_machine_ ≠ State.RUNNING ∨ d.process_ = none) := by
      simp [hsm, hproc]
    simp only [handle_spin_down, if_neg hg2, hsm]
    repeat' split
    all_goals
      simp_all [DaemonInv, transition_to, is_valid_transition,
        finalize_badClose, finalize_isOpen, LogMgr.get_current_log_path]

/-- Helper: the lazy liveness cleanup preserves the daemon invariant. -/
theorem check_and_cleanup_inv (d : Daemon) (hinv : DaemonInv d) :
    DaemonInv (check_and_cleanup_process d) := by
  obtain ⟨hbad, hidle, hopen⟩ := hinv
  simp only [check_and_cleanup_process]
  repeat' split
  all_goals
    first
      | exact ⟨hbad, hidle, hopen⟩
      | simp_all [DaemonInv, transition_to, is_valid_transition,
          finalize_badClose, finalize_isOpen]

/-- Helper: the state command changes the daemon exactly by the lazy
cleanup. -/
theorem handle_state_fst (d : Daemon) :
    (handle_state d).1 = check_and_cleanup_process d := by
  simp only [handle_state]
  repeat' split
  all_goals rfl

/-- Helper: every command execution preserves the daemon invariant. -/
theorem DaemonInv_execute (env : Env) (d : Daemon) (command : String)
    (hinv : DaemonInv d) : DaemonInv (execute env d command).1 := by
  simp only [execute]
  repeat' split
  all_goals
    first
      | exact hinv
      | apply DaemonInv_handle_spin_up _ _ _ hinv
      | apply DaemonInv_handle_spin_down _ _ hinv
      | (rw [handle_state_fst]; exact check_and_cleanup_inv _ hinv)

/-- Helper: every supervisor step preserves the daemon invariant. -/
theorem DaemonInv_dstep {d d2 : Daemon} (hinv : DaemonInv d) (hs : DStep d d2) :
    DaemonInv d2 := by
  cases hs with
  | cmd env command _ => exact DaemonInv_execute env d command hinv
  | childDies _ p h =>
    obtain ⟨hbad, hidle, hopen⟩ := hinv
    refine ⟨hbad, fun hsm => ?_, fun ho => ?_⟩
    · obtain ⟨h1, h2, h3⟩ := hidle hsm
      rw [h2] at h
      simp at h
    · obtain ⟨h1, h2⟩ := hopen ho
      exact ⟨rfl, h2⟩
  | watchdogTrips _ p h =>
    obtain ⟨hbad, hidle, hopen⟩ := hinv
    refine ⟨hbad, fun hsm => ?_, fun ho => ?_⟩
    · obtain ⟨h1, h2, h3⟩ := hidle hsm
      rw [h2] at h
      simp at h
    · obtain ⟨h1, h2⟩ := hopen ho
      exact ⟨rfl, h2⟩

/-- Helper: the daemon invariant holds in every reachable state. -/
theorem DReachable_inv : ∀ d : Daemon, DReachable d → DaemonInv d := by
  intro d h
  induction h with
  | init =>
    exact ⟨rfl, fun _ => ⟨rfl, rfl, rfl⟩,
           fun hopen => by simp [daemonInit, logInit] at hopen⟩
  | step hr hs ih => exact DaemonInv_dstep ih hs

/-- C4: in every reachable dispatcher state, no session log handle was
ever closed — or replaced by a later create_log — without the teardown
footer having been written to it first (the footer-less fclose at the top
of create_log never fires, because a log is open only while a session is
held and create_log runs only from Idle), and whenever no Session is held
the log has been finalized and closed, so every log handle ever opened is
finalized before its Session is dropped, on every dispatcher path
including errors, child death and watchdog-initiated termination. -/
theorem C4_every_log_finalized (d : Daemon) (hr : DReachable d) :
    d.log_manager_.badClose = false ∧
    (d.process_ = none → d.log_manager_.isOpen = false) := by
  obtain ⟨hbad, hidle, hopen⟩ := DReachable_inv d hr
  refine ⟨hbad, fun hn => ?_⟩
  by_cases ho : d.log_manager_.isOpen = true
  · obtain ⟨h1, h2⟩ := hopen ho
    rw [hn] at h1
    simp at h1
  · simpa using ho

/-- C4 witness: after a successful spin_up from the initial state, the
reachable state has no footer-less close on record. -/
theorem C4_every_log_finalized_witness :
    dRun.log_manager_.badClose = false :=
  (C4_every_log_finalized dRun
    (DReachable.step DReachable.init
      (DStep.cmd envGood ("spin_up:c\n") daemonInit))).1

/-- C5 counterexample: dRun — reached from the initial state by one
successful spin_up — makes a second spin_up return a reply with a
non-null error (AlreadyRunning), yet the daemon is unchanged: the Session
is still held and the lifecycle state is Running, not Idle, refuting the
claim as stated for this invocation. -/
theorem C5_counterexample :
    DReachable dRun ∧
    (execute envGood dRun ("spin_up:c\n")).2.error.isSome = true ∧
    (execute envGood dRun ("spin_up:c\n")).1 = dRun ∧
    dRun.state_machine_ = State.RUNNING ∧
    dRun.process_ ≠ none := by
  refine ⟨DReachable.step DReachable.init
    (DStep.cmd envGood ("spin_up:c\n") daemonInit), ?_⟩
  decide

/-- C5 (amended): whenever a spin_up invocation that finds the lifecycle
state Idle returns a reply whose error field is non-null, then before the
reply is produced any log opened during the call has been finalized (the
log is closed, and closed with its footer: badClose stays false), the
Session has been dropped, the config cleared, and the lifecycle state is
Idle.  The AlreadyRunning rejection, which the claim as stated also
covers, leaves the existing running session untouched instead. -/
theorem C5_spin_up_error_cleanup (env : SpinUpEnv) (d : Daemon) (cfg : String)
    (hinv : DaemonInv d) (hsm : d.state_machine_ = State.IDLE)
    (herr : (handle_spin_up env d cfg).2.error.isSome = true) :
    (handle_spin_up env d cfg).1.state_machine_ = State.IDLE ∧
    (handle_spin_up env d cfg).1.process_ = none ∧
    (handle_spin_up env d cfg).1.current_config_ = "" ∧
    (handle_spin_up env d cfg).1.log_manager_.isOpen = false ∧
    (handle_spin_up env d cfg).1.log_manager_.badClose = false := by
  obtain ⟨hbad, hidle, hopen⟩ := hinv
  obtain ⟨hop, hpr, hcf⟩ := hidle hsm
  by_cases hce : env.config_exists = false <;>
  by_cases hgv : env.get_version_throws = true <;>
  by_cases hcl : env.create_log_fails = true <;>
  by_cases hsp : env.spawn_ok = false <;>
  by_cases hnp : env.new_pid = -1 <;>
  by_cases hal : env.alive_after_delay = true <;>
  simp_all [handle_spin_up, transition_to, is_valid_transition,
    LogMgr.create_log, finalize_badClose, finalize_isOpen, LogMgr.is_log_open,
    LogMgr.get_current_log_path, WireProxyProcess_is_alive]

/-- C5 witness: a spin_up for a missing config from the initial state
fails and leaves the daemon Idle. -/
theorem C5_spin_up_error_cleanup_witness :
    (handle_spin_up envNoop.spin_up_env daemonInit ("c")).1.state_machine_ =
      State.IDLE :=
  (C5_spin_up_error_cleanup envNoop.spin_up_env daemonInit ("c")
    (DReachable_inv daemonInit DReachable.init) rfl (by decide)).1

/-- C6: when a state command finds the lifecycle state Running, a held
process, the child not alive (the no-hang waitpid probe, which also reaps
the zombie, reports death) and the log open, it finalizes the log with
the reason Network drop detected - auto-terminated exactly when the
network-drop flag is set and Process died unexpectedly otherwise, drops
the session, clears the config, transitions to Idle, and replies with
running false and a null error. -/
theorem C6_state_cleanup_dead_child (d : Daemon) (p : Proc)
    (hsm : d.state_machine_ = State.RUNNING)
    (hpr : d.process_ = some p)
    (hdead : WireProxyProcess_is_alive p = false)
    (hopen : d.log_manager_.isOpen = true) :
    (handle_state d).1.log_manager_.lastReason =
      some (if p.network_drop_detected then ("Network drop detected - auto-terminated")
            else ("Process died unexpectedly")) ∧
    (handle_state d).1.process_ = none ∧
    (handle_state d).1.state_machine_ = State.IDLE ∧
    (handle_state d).1.current_config_ = "" ∧
    (handle_state d).1.log_manager_.isOpen = false ∧
    (handle_state d).2.error = none ∧
    (∃ tl, (handle_state d).2.result = some (("running", JVal.jbool false) :: tl)) := by
  have hclean : check_and_cleanup_process d =
      { d with log_manager_ := d.log_manager_.finalize
                 (if p.network_drop_detected then ("Network drop detected - auto-terminated")
                  else ("Process died unexpectedly")),
               process_ := none,
               current_config_ := "",
               state_machine_ := State.IDLE } := by
    simp [check_and_cleanup_process, hsm, hpr, hdead, transition_to, is_valid_transition]
  have hreply : (handle_state d).2 =
      ⟨"state",
       some [("running", JVal.jbool false), ("config", JVal.jnull), ("pid", JVal.jnull),
             ("log_file",
              if d.log_manager_.current_log_path = "" then JVal.jnull
              else JVal.jstr d.log_manager_.current_log_path)],
       none⟩ := by
    simp [handle_state, hclean, LogMgr.get_current_log_path, LogMgr.finalize, hopen]
  rw [handle_state_fst, hclean]
  refine ⟨finalize_lastReason _ _ hopen, rfl, rfl, rfl, finalize_isOpen _ _, ?_, ?_⟩
  · rw [hreply]
  · rw [hreply]
    exact ⟨_, rfl⟩

/-- C6 witness: a Running daemon whose child died without a network drop
is cleaned up with reason Process died unexpectedly. -/
theorem C6_state_cleanup_dead_child_witness :
    (handle_state dDead).1.process_ = none ∧
    (handle_state dDead).1.log_manager_.lastReason =
      some ("Process died unexpectedly") := by
  have h := C6_state_cleanup_dead_child dDead pDead rfl rfl (by decide) rfl
  exact ⟨h.2.1, h.1⟩
